import Mathlib

/-!
# TestCard: the test-card window orchestrator of `src/background.js`

A shallow embedding of the window-management part of `background.js`
(the Electron main process of the TestCard application) together with theorems about it.

The module-level variables of the script (`config`, `testCardWindow`,
`testCardWindowScreen`, `headlessExportMode`, `testCardWindowResizeTimer`) become
the fields of `State`; what the script reads from Electron and from `process`
(`screen.getAllDisplays()`, `process.platform`, ...) is the read-only `Env`.
Every function of the script is a function `Env → State → Except JsError State`;
the calls it makes on Electron objects are appended, in program order, to `State.trace`.
-/

namespace TestCard

/-! ## Data model -/

/-- Electron `Rectangle` (`Display.bounds`, `Display.workArea`, `BrowserWindow.getBounds()`). -/
structure Rectangle where
  x : Int
  y : Int
  width : Int
  height : Int
deriving DecidableEq, Repr

/-- Electron `Display`, with the fields the script reads. -/
structure Display where
  id : Int
  bounds : Rectangle
  workArea : Rectangle
  displayFrequency : Int
deriving DecidableEq, Repr

/-- The `config` object, with the fields the window orchestrator and the OSC listener use. -/
structure Config where
  visible : Bool
  windowed : Bool
  screen : Int
  winWidth : Int
  winHeight : Int
  animated : Bool
  showInfo : Bool
  name : String
  cardType : String
deriving DecidableEq, Repr

/-- The options object handed to `new BrowserWindow(...)` (`windowConfig` in
`setupNewTestCardWindow`, `c` in the `exportCard` handler). A property the script never
assigns is `none` (`false` for `fullscreen`). `x` and `y` are rationals because the script
computes them with the JavaScript division `/ 2`. The source field `show` is `show_`. -/
structure WindowConfig where
  show_ : Bool
  frame : Bool
  width : Int
  height : Int
  x : Option ℚ
  y : Option ℚ
  fullscreen : Bool
  simpleFullscreen : Option Bool
  minWidth : Option Int
  minHeight : Option Int
deriving DecidableEq, Repr

/-- A live `BrowserWindow`: the options it was constructed with and what the script can
query from it (`getBounds()`, `isFullScreen()`, `isSimpleFullScreen()`), plus whether
`show()` has been called on it. -/
structure BrowserWindow where
  options : WindowConfig
  bounds : Rectangle
  fullScreen : Bool
  simpleFullScreen : Bool
  shown : Bool
deriving DecidableEq, Repr

/-- Calls the script makes on Electron objects and timers, recorded in program order. -/
inductive Effect where
  /-- Call `new BrowserWindow(windowConfig)` -/
  | newBrowserWindow (windowConfig : WindowConfig)
  /-- Call `testCardWindow.close()` -/
  | close
  /-- Call `testCardWindow.setBounds({ width, height })` -/
  | setBounds (width height : Int)
  /-- Call `testCardWindow.setContentSize(width, height)` -/
  | setContentSize (width height : Int)
  /-- Call `testCardWindow.setPosition(x, y)` -/
  | setPosition (x y : Int)
  /-- Call `testCardWindow.show()` -/
  | showWindow
  /-- Call `controlWindow.webContents.send('config', config)` -/
  | sendControlConfig (config : Config)
  /-- Call `testCardWindow.webContents.send('config', config)` -/
  | sendTestCardConfig (config : Config)
  /-- Call `testCardWindow.webContents.send('exportCard')` -/
  | sendTestCardExportCard
  /-- Call `setTimeout(manageTestCardWindow, 500)` -/
  | setTimeoutManage
  /-- Call `testCardWindowResizeTimer = setTimeout(handleTestCardResize, 500)` -/
  | setTimeoutResize
  /-- Call `clearTimeout(testCardWindowResizeTimer)` -/
  | clearTimeoutResize
  /-- Call `store.set('KardsConfig', config)` -/
  | storeSet (config : Config)
deriving DecidableEq, Repr

/-- What the script reads from the host: `screen.getAllDisplays()`,
`screen.getPrimaryDisplay().id`, `process.platform == 'darwin'`, the first two components
of `process.getSystemVersion().split('.')`, and the bounds the host reports for a freshly
constructed window. -/
structure Env where
  displays : List Display
  primaryDisplay : Int
  darwin : Bool
  versionMajor : Nat
  versionMinor : Nat
  initialBounds : WindowConfig → Rectangle

/-- The module-level mutable variables of the script. `testCardWindowResizeTimer` is whether
a resize timer is pending, `manageTimers` the number of pending
`setTimeout(manageTestCardWindow, 500)` timers. -/
structure State where
  config : Config
  testCardWindow : Option BrowserWindow
  testCardWindowScreen : Option Int
  headlessExportMode : Bool
  testCardWindowResizeTimer : Bool
  manageTimers : Nat
  trace : List Effect
deriving DecidableEq, Repr

/-- A JavaScript exception escaping a function of the script. -/
inductive JsError where
  /-- a property read or method call on `null` -/
  | typeError
deriving DecidableEq, Repr

/-- Appends one host call to the trace. -/
def State.emit (s : State) (e : Effect) : State :=
  { s with trace := s.trace ++ [e] }

/-! ## Test card management (`background.js` 300-464) -/

/-- Source `function closeTestCard()`: `testCardWindow.close()` raises the window's `close` event,
whose handler (registered in `showTestCardWindow`) sets `testCardWindow = null`. -/
def closeTestCard (s : State) : Except JsError State :=
  match s.testCardWindow with
  | none => .error .typeError
  | some _ =>
    let s := { s.emit .close with testCardWindow := none }
    let s := { s with testCardWindowScreen := none }
    .ok { s.emit .clearTimeoutResize with testCardWindowResizeTimer := false }

/-- Source `function reopenTestCard()` -/
def reopenTestCard (s : State) : Except JsError State := do
  let s ← closeTestCard s
  let s := { s with config := { s.config with visible := true } }
  .ok { s.emit .setTimeoutManage with manageTimers := s.manageTimers + 1 }

/-- Source `function moveTestCardToNewScreen()` -/
def moveTestCardToNewScreen (env : Env) (s : State) : Except JsError State :=
  if s.config.windowed then
    .ok (env.displays.foldl
      (fun s disp =>
        if disp.id = s.config.screen then { s with testCardWindowScreen := some disp.id } else s)
      s)
  else
    reopenTestCard s

/-- Source `function showTestCardWindow(windowConfig)`. The `ready-to-show`, `resize` and `move`
handlers it registers are the functions `readyToShow`, `onResize` and `onMove` below.
Host model of `new BrowserWindow(windowConfig)`: the window reports fullscreen
(`isFullScreen() || isSimpleFullScreen()`, the only way the script reads the two) exactly
when it was constructed with `fullscreen: true`, and its first bounds are
`env.initialBounds windowConfig`. -/
def showTestCardWindow (env : Env) (windowConfig : WindowConfig) (s : State) :
    Except JsError State :=
  let w : BrowserWindow :=
    { options := windowConfig
      bounds := env.initialBounds windowConfig
      fullScreen := windowConfig.fullscreen
      simpleFullScreen := windowConfig.fullscreen && windowConfig.simpleFullscreen == some true
      shown := false }
  let s := { s.emit (.newBrowserWindow windowConfig) with testCardWindow := some w }
  let s := { s with testCardWindowScreen := some s.config.screen }
  if s.config.windowed || s.headlessExportMode then
    .ok { s.emit (.setBounds windowConfig.width windowConfig.height) with
          testCardWindow := some
            { w with bounds := { w.bounds with width := windowConfig.width,
                                               height := windowConfig.height } } }
  else
    .ok s

/-- The `catalina` flag computed in `setupNewTestCardWindow`. -/
def catalina (env : Env) : Bool :=
  decide (env.versionMajor > 10) || (env.versionMajor == 10 && decide (env.versionMinor ≥ 15))

/-- The options object `setupNewTestCardWindow` has built when it calls
`showTestCardWindow`. -/
def setupWindowConfig (env : Env) (config : Config) : WindowConfig :=
  let windowConfig : WindowConfig :=
    { show_ := false, frame := false, width := config.winWidth, height := config.winHeight,
      x := none, y := none, fullscreen := false, simpleFullscreen := none,
      minWidth := none, minHeight := none }
  if !config.windowed then
    let windowConfig := { windowConfig with fullscreen := true }
    env.displays.foldl
      (fun windowConfig disp =>
        if disp.id = config.screen then
          let windowConfig :=
            if env.darwin then
              if disp.bounds.height ≠ disp.workArea.height ∧ catalina env = true then
                { windowConfig with simpleFullscreen := some false }
              else if !catalina env then
                { windowConfig with simpleFullscreen := some true }
              else
                { windowConfig with simpleFullscreen := some true }
            else windowConfig
          { windowConfig with
            x := some (disp.bounds.x : ℚ)
            y := some (disp.bounds.y : ℚ)
            width := disp.bounds.width
            height := disp.bounds.height }
        else windowConfig)
      windowConfig
  else
    env.displays.foldl
      (fun windowConfig disp =>
        if disp.id = config.screen then
          { windowConfig with
            x := some ((disp.bounds.x : ℚ) + ((disp.bounds.width : ℚ) - config.winWidth) / 2)
            y := some ((disp.bounds.y : ℚ) + ((disp.bounds.height : ℚ) - config.winHeight) / 2) }
        else windowConfig)
      windowConfig

/-- Source `function setupNewTestCardWindow()` -/
def setupNewTestCardWindow (env : Env) (s : State) : Except JsError State :=
  showTestCardWindow env (setupWindowConfig env s.config) s

/-- Source `function manageTestCardWindow()` -/
def manageTestCardWindow (env : Env) (s : State) : Except JsError State :=
  if s.testCardWindow.isNone && s.config.visible then
    setupNewTestCardWindow env s
  else if s.testCardWindow.isSome && !s.config.visible && !s.headlessExportMode then
    closeTestCard s
  else if s.testCardWindow.isSome && s.config.visible
      && decide (some s.config.screen ≠ s.testCardWindowScreen) then
    moveTestCardToNewScreen env s
  else
    match s.testCardWindow with
    | some w =>
      if w.fullScreen || w.simpleFullScreen then
        if s.config.windowed then reopenTestCard s else .ok s
      else if !w.fullScreen && !w.simpleFullScreen then
        if !s.config.windowed then reopenTestCard s else .ok s
      else .ok s
    | none => .ok s

/-- The timer set by `setTimeout(manageTestCardWindow, 500)` in `reopenTestCard` fires:
one pending timer is consumed and `manageTestCardWindow` runs. With no timer pending nothing
happens. -/
def fireManageTimer (env : Env) (s : State) : Except JsError State :=
  if s.manageTimers = 0 then .ok s
  else manageTestCardWindow env { s with manageTimers := s.manageTimers - 1 }

/-- The handler `ipcMain.on('config', (_, arg) => ...)` (lines 97-109). `parseInt` is the
identity on the integer fields of `Config`. -/
def onConfig (env : Env) (arg : Config) (s : State) : Except JsError State := do
  let s := { s with config := arg }
  let s ← manageTestCardWindow env s
  let s :=
    match s.testCardWindow with
    | some _ =>
      let s := s.emit (.sendTestCardConfig s.config)
      if s.config.windowed then
        s.emit (.setContentSize s.config.winWidth s.config.winHeight)
      else s
    | none => s
  .ok (s.emit (.storeSet s.config))

/-! ## Geometry feedback: the handlers registered in `showTestCardWindow` -/

/-- The handler `testCardWindow.once('ready-to-show', ...)`. -/
def readyToShow (s : State) : Except JsError State :=
  if s.config.visible && !s.headlessExportMode then
    match s.testCardWindow with
    | none => .error .typeError
    | some w => .ok { s.emit .showWindow with testCardWindow := some { w with shown := true } }
  else .ok s

/-- The handler `testCardWindow.on('resize', ...)`. -/
def onResize (s : State) : State :=
  let s := { s.emit .clearTimeoutResize with testCardWindowResizeTimer := false }
  { s.emit .setTimeoutResize with testCardWindowResizeTimer := true }

/-- The handler `testCardWindow.on('move', ...)`. -/
def onMove (env : Env) (s : State) : Except JsError State :=
  match s.testCardWindow with
  | none => .error .typeError
  | some w =>
    let x := w.bounds.x
    let y := w.bounds.y
    .ok (env.displays.foldl
      (fun s disp =>
        if x > disp.bounds.x ∧ x < disp.bounds.x + disp.bounds.width
            ∧ y > disp.bounds.y ∧ y < disp.bounds.y + disp.bounds.height then
          if s.testCardWindowScreen ≠ some disp.id then
            let s := { s with config := { s.config with screen := disp.id } }
            s.emit (.sendControlConfig s.config)
          else s
        else s)
      s)

/-- Source `function handleTestCardResize()` -/
def handleTestCardResize (env : Env) (s : State) : Except JsError State :=
  match s.testCardWindow with
  | none => .error .typeError
  | some w =>
    let bounds := w.bounds
    let t : Int := 2
    if s.config.winWidth < bounds.width - t ∨ s.config.winWidth > bounds.width + t
        ∨ s.config.winHeight < bounds.height - t ∨ s.config.winHeight > bounds.height + t
        ∨ env.darwin = true then
      let s := { s with config := { s.config with winWidth := bounds.width } }
      let s := { s with config := { s.config with winHeight := bounds.height } }
      .ok (s.emit (.sendControlConfig s.config))
    else .ok s

/-- The timer set by the `resize` handler fires: if it is still pending,
`handleTestCardResize` runs. -/
def fireResizeTimer (env : Env) (s : State) : Except JsError State :=
  if s.testCardWindowResizeTimer then
    handleTestCardResize env { s with testCardWindowResizeTimer := false }
  else .ok s

/-! ## Export PNG images (`background.js` 481-578) -/

/-- The options object `c` the `exportCard` handler has built when it calls
`showTestCardWindow`. -/
def exportWindowConfig (env : Env) (config : Config) : WindowConfig :=
  let c : WindowConfig :=
    { show_ := false, frame := false, width := config.winWidth, height := config.winHeight,
      x := none, y := none, fullscreen := false, simpleFullscreen := none,
      minWidth := none, minHeight := none }
  if config.windowed then
    { c with minWidth := some config.winWidth, minHeight := some config.winHeight }
  else
    env.displays.foldl
      (fun c disp =>
        if disp.id = config.screen then
          { c with
            width := disp.bounds.width
            height := disp.bounds.height
            minWidth := some disp.bounds.width
            minHeight := some disp.bounds.height }
        else c)
      c

/-- The handler `ipcMain.on('exportCard', ...)`. -/
def exportCard (env : Env) (s : State) : Except JsError State :=
  match s.testCardWindow with
  | some _ => .ok (s.emit .sendTestCardExportCard)
  | none =>
    let s := { s with headlessExportMode := true }
    showTestCardWindow env (exportWindowConfig env s.config) s

/-- The handler `ipcMain.on('saveAsPNG', ...)`, without the save dialog and the file write,
which touch none of the module-level variables. Here `testCardWindow.close()` is called
directly; the `close` handler sets `testCardWindow = null`. -/
def saveAsPNG (s : State) : Except JsError State :=
  let s := { s with headlessExportMode := false }
  if !s.config.visible then
    match s.testCardWindow with
    | none => .error .typeError
    | some _ => .ok { s.emit .close with testCardWindow := none }
  else .ok s

/-- The handler `ipcMain.on('setAsWallpaper', ...)`, without the file write and the
wallpaper call, which touch none of the module-level variables. -/
def setAsWallpaper (s : State) : Except JsError State :=
  let s := { s with headlessExportMode := false }
  if !s.config.visible then
    match s.testCardWindow with
    | none => .error .typeError
    | some _ => .ok { s.emit .close with testCardWindow := none }
  else .ok s

/-! ## OSC remote control (`background.js` 700-727) -/

/-- The value `msg[1]` of an OSC message: an integer, a string, a boolean, or absent.
Floating-point arguments are left out. -/
inductive OscValue where
  | int (n : Int)
  | str (s : String)
  | bool (b : Bool)
  | undefined
deriving DecidableEq, Repr

/-- JavaScript `Boolean(data)`. -/
def OscValue.toBoolean : OscValue → Bool
  | .int n => decide (n ≠ 0)
  | .str s => decide (s ≠ "")
  | .bool b => b
  | .undefined => false

/-- JavaScript `String(data)`. -/
def OscValue.toJsString : OscValue → String
  | .int n => toString n
  | .str s => s
  | .bool true => "true"
  | .bool false => "false"
  | .undefined => "undefined"

/-- The JavaScript comma operator `a, b`: both operands are evaluated and the value is the
second one. -/
def comma {α : Type} (_a b : α) : α := b

/-- The handler `oscServer.on('message', function (msg) ...)` with `cmd = msg[0]` and
`data = msg[1]`. The first `case` label of the `switch` is the expression
`'/animated', '/motion'`. -/
def oscMessage (cmd : String) (data : OscValue) (s : State) : State :=
  let s :=
    if cmd = comma "/animated" "/motion" then
      { s with config := { s.config with animated := data.toBoolean } }
    else if cmd = "/showInfo" then
      { s with config := { s.config with showInfo := data.toBoolean } }
    else if cmd = "/name" then
      { s with config := { s.config with name := data.toJsString } }
    else if cmd = "/cardType" then
      { s with config := { s.config with cardType := data.toJsString } }
    else s
  s.emit (.sendControlConfig s.config)

/-! ## The window's own `close` event and the explicit placement command -/

/-- The handler `testCardWindow.on('close', ...)` registered in `showTestCardWindow`
(lines 414-416), for a close that does not come from the script (the user or the page
closes the window): it only sets `testCardWindow = null`. -/
def onClose (s : State) : State :=
  { s with testCardWindow := none }

/-- JavaScript `Math.round` on a rational: the nearest integer, a half rounded up. -/
def mathRound (q : ℚ) : Int :=
  Rat.floor (q + 1 / 2)

/-- The handler `ipcMain.on('moveWindowTo', (_, arg) => ...)` (lines 396-406). Host model of
`setPosition`: the window reports the new position at once. -/
def moveWindowTo (env : Env) (arg : Int) (s : State) : Except JsError State :=
  env.displays.foldlM
    (fun s disp =>
      if disp.id = arg then
        let s := { s with testCardWindowScreen := some disp.id }
        let x := (disp.bounds.x : ℚ) + ((disp.bounds.width : ℚ) - s.config.winWidth) / 2
        let y := (disp.bounds.y : ℚ) + ((disp.bounds.height : ℚ) - s.config.winHeight) / 2
        match s.testCardWindow with
        | none => .error .typeError
        | some w =>
          .ok { s.emit (.setPosition (mathRound x) (mathRound y)) with
                testCardWindow := some
                  { w with bounds := { w.bounds with x := mathRound x, y := mathRound y } } }
      else .ok s)
    s

/-! ## Screen management (`background.js` 188-221) -/

/-- Messages `updateScreens` sends. -/
inductive ScreenEffect where
  /-- Call `controlWindow.webContents.send('screens', {all: screens, primary: primaryScreen})` -/
  | sendControlScreens (all : List Display) (primary : Int)
  /-- Call `testCardWindow.webContents.send('displayFrequency', ...)` -/
  | sendTestCardDisplayFrequency (displayFrequency : Int)
deriving DecidableEq, Repr

/-- The module-level variables `screens` and `primaryScreen`, whether `controlWindow` is
non-null, and the timers of the display handlers: `timers` holds the due time, in
milliseconds, of every pending `setTimeout(updateScreens, 500)`, in the order they were
set, and `runs` the times at which `updateScreens` was run by such a timer. `sent` records
the messages sent. -/
structure ScreenTracker where
  screens : List Display
  primaryScreen : Option Int
  controlWindow : Bool
  timers : List Nat
  runs : List Nat
  sent : List ScreenEffect
deriving DecidableEq, Repr

/-- Source `function updateScreens()`; it reads `testCardWindow` and `config.screen` from the
test-card state `s`. -/
def updateScreens (env : Env) (s : State) (k : ScreenTracker) : ScreenTracker :=
  let k := { k with screens := env.displays }
  let k := { k with primaryScreen := some env.primaryDisplay }
  let k :=
    if k.controlWindow then
      { k with sent := k.sent ++ [.sendControlScreens k.screens env.primaryDisplay] }
    else k
  match s.testCardWindow with
  | some _ =>
    k.screens.foldl
      (fun k scr =>
        if scr.id = s.config.screen then
          { k with sent := k.sent ++ [.sendTestCardDisplayFrequency scr.displayFrequency] }
        else k)
      k
  | none => k

/-- The handlers `screen.on('display-added', ...)`, `screen.on('display-removed', ...)` and
`screen.on('display-metrics-changed', ...)`, which are the same function: at time `now`
they call `setTimeout(updateScreens, 500)`. No timer handle is kept. -/
def onDisplayEvent (now : Nat) (k : ScreenTracker) : ScreenTracker :=
  { k with timers := k.timers ++ [now + 500] }

/-- The event loop up to time `now`: every pending `updateScreens` timer that is due runs,
in the order the timers were set (all have the same delay), against the topology
`host due` the host reports at its due time. -/
def runScreenTimers (host : Nat → Env) (s : State) (now : Nat) (k : ScreenTracker) :
    ScreenTracker :=
  (k.timers.filter (fun due => due ≤ now)).foldl
    (fun k due => { updateScreens (host due) s k with runs := k.runs ++ [due] })
    { k with timers := k.timers.filter (fun due => ¬ due ≤ now) }

/-- A sequence of raw display events at the times `times`: before each event the timers
that are due by then run, then the handler runs. -/
def displayEvents (host : Nat → Env) (s : State) (times : List Nat) (k : ScreenTracker) :
    ScreenTracker :=
  times.foldl (fun k now => onDisplayEvent now (runScreenTimers host s now k)) k

/-! ## Sample data used by the concrete evaluations below -/

/-- A display `D1` at the origin, 1920x1080, whose work area leaves out a 25-unit menu bar. -/
def displayD1 : Display :=
  { id := 1, bounds := ⟨0, 0, 1920, 1080⟩, workArea := ⟨0, 25, 1920, 1055⟩,
    displayFrequency := 60 }

/-- A display `D2` to the right of `D1`, 1920x1080. -/
def displayD2 : Display :=
  { id := 2, bounds := ⟨1920, 0, 1920, 1080⟩, workArea := ⟨1920, 0, 1920, 1080⟩,
    displayFrequency := 60 }

/-- A non-darwin host with displays `D1` (primary) and `D2`; a new window is reported at
its requested size at the origin. -/
def twoDisplays : Env :=
  { displays := [displayD1, displayD2], primaryDisplay := 1, darwin := false,
    versionMajor := 0, versionMinor := 0,
    initialBounds := fun windowConfig => ⟨0, 0, windowConfig.width, windowConfig.height⟩ }

/-- A configuration: hidden, windowed, on `D1`, 800x600. -/
def hiddenWindowed : Config :=
  { visible := false, windowed := true, screen := 1, winWidth := 800, winHeight := 600,
    animated := false, showInfo := false, name := "Kards", cardType := "alteka" }

/-- The start-up state with configuration `config`: no window, no timers, empty trace. -/
def closedState (config : Config) : State :=
  { config := config, testCardWindow := none, testCardWindowScreen := none,
    headlessExportMode := false, testCardWindowResizeTimer := false, manageTimers := 0,
    trace := [] }

/-- The state `config` and a live window `w` placed on display `screen`, outside headless
export mode, with no timers and an empty trace. -/
def openState (config : Config) (w : BrowserWindow) (screen : Int) : State :=
  { config := config, testCardWindow := some w, testCardWindowScreen := some screen,
    headlessExportMode := false, testCardWindowResizeTimer := false, manageTimers := 0,
    trace := [] }

/-- A windowed 800x600 window at `(x, y)`. -/
def windowedWindow (x y : Int) : BrowserWindow :=
  { options :=
      { show_ := false, frame := false, width := 800, height := 600, x := none, y := none,
        fullscreen := false, simpleFullscreen := none, minWidth := none, minHeight := none }
    bounds := ⟨x, y, 800, 600⟩, fullScreen := false, simpleFullScreen := false,
    shown := true }

/-- A fullscreen window covering `D1`. -/
def fullscreenWindow : BrowserWindow :=
  { options :=
      { show_ := false, frame := false, width := 1920, height := 1080, x := some 0,
        y := some 0, fullscreen := true, simpleFullscreen := none, minWidth := none,
        minHeight := none }
    bounds := ⟨0, 0, 1920, 1080⟩, fullScreen := true, simpleFullScreen := false,
    shown := true }

/-- A simple-fullscreen window covering `D2`. -/
def simpleFullscreenWindowD2 : BrowserWindow :=
  { options :=
      { show_ := false, frame := false, width := 1920, height := 1080, x := some 1920,
        y := some 0, fullscreen := true, simpleFullscreen := some true, minWidth := none,
        minHeight := none }
    bounds := ⟨1920, 0, 1920, 1080⟩, fullScreen := false, simpleFullScreen := true,
    shown := true }

/-- The state a headless capture leaves after `exportCard` ran with no surface and the
hidden windowed 800x600 configuration: headless export mode on, a hidden 800x600 window
that is not fullscreen, the placement marker on display `1`. -/
def headlessState : State :=
  { config := hiddenWindowed
    testCardWindow := some
      { options := exportWindowConfig twoDisplays hiddenWindowed
        bounds := ⟨0, 0, 800, 600⟩, fullScreen := false, simpleFullScreen := false,
        shown := false }
    testCardWindowScreen := some 1
    headlessExportMode := true
    testCardWindowResizeTimer := false
    manageTimers := 0
    trace := [Effect.newBrowserWindow (exportWindowConfig twoDisplays hiddenWindowed),
              Effect.setBounds 800 600] }

/-- The state `headlessState` after the configuration was written with `visible = true`
(`onConfig`): the hidden window is still there, headless export mode is still on. -/
def headlessStateMadeVisible : State :=
  { headlessState with
    config := { hiddenWindowed with visible := true }
    trace := headlessState.trace ++
      [Effect.sendTestCardConfig { hiddenWindowed with visible := true },
       Effect.setContentSize 800 600,
       Effect.storeSet { hiddenWindowed with visible := true }] }

/-- The screen tracker at start-up after the first `updateScreens()`: the control window
is open, no display timer is pending and none has run. -/
def idleTracker : ScreenTracker :=
  { screens := twoDisplays.displays, primaryScreen := some 1, controlWindow := true,
    timers := [], runs := [], sent := [] }

/-- A windowed 800x600 surface at `(560, 240)` on `D1`, shown under a visible windowed
configuration whose screen is `D1`. -/
def windowedOnD1 : State :=
  openState { hiddenWindowed with visible := true } (windowedWindow 560 240) 1

/-! ## Facts about the loops over `screen.getAllDisplays()` and about the building blocks -/

/-- A left fold whose step leaves the accumulator alone on every element returns it. -/
theorem foldl_fixed {α β : Type} (f : β → α → β) (b : β) :
    ∀ l : List α, (∀ a ∈ l, f b a = b) → l.foldl f b = b := by
  intro l
  induction l with
  | nil => intro _; rfl
  | cons a l ih =>
    intro h
    rw [List.foldl_cons, h a (List.mem_cons_self a l)]
    exact ih (fun a' ha' => h a' (List.mem_cons_of_mem a ha'))

/-- A property kept by every step of a left fold holds of its result. -/
theorem foldl_keeps {α β : Type} (P : β → Prop) (f : β → α → β)
    (hstep : ∀ b a, P b → P (f b a)) : ∀ (l : List α) (b : β), P b → P (l.foldl f b) := by
  intro l
  induction l with
  | nil => intro b hb; exact hb
  | cons a l ih => intro b hb; exact ih (f b a) (hstep b a hb)

/-- The loop of `moveTestCardToNewScreen`: the placement marker becomes `config.screen` when
some display has that id, and nothing changes otherwise. -/
theorem moveLoop_eq (ds : List Display) (s : State) :
    ds.foldl
        (fun s disp =>
          if disp.id = s.config.screen then { s with testCardWindowScreen := some disp.id }
          else s)
        s
      = if ∃ d ∈ ds, d.id = s.config.screen then
          { s with testCardWindowScreen := some s.config.screen }
        else s := by
  induction ds generalizing s with
  | nil => simp
  | cons d ds ih =>
    rw [List.foldl_cons]
    by_cases hd : d.id = s.config.screen
    · rw [if_pos hd, ih]
      simp [hd]
    · rw [if_neg hd, ih]
      simp [hd]

/-- The options `setupNewTestCardWindow` builds ask for fullscreen exactly when the
configuration is not windowed. -/
theorem setupWindowConfig_fullscreen (env : Env) (config : Config) :
    (setupWindowConfig env config).fullscreen = !config.windowed := by
  unfold setupWindowConfig
  cases hwin : config.windowed
  · simp only [Bool.not_false, if_true]
    apply foldl_keeps (fun wc : WindowConfig => wc.fullscreen = true)
    · intro b a hb
      dsimp only
      split_ifs <;> simp [hb]
    · rfl
  · simp only [Bool.not_true, Bool.false_eq_true, if_false]
    apply foldl_keeps (fun wc : WindowConfig => wc.fullscreen = false)
    · intro b a hb
      dsimp only
      split_ifs <;> simp [hb]
    · rfl

/-- The function `showTestCardWindow` always returns: the new window is live, carries the options it was
built from, its live mode is the requested one, the placement marker is `config.screen`,
and the configuration, the headless flag and the timers are untouched. -/
theorem showTestCardWindow_spec (env : Env) (wc : WindowConfig) (s : State) :
    ∃ s' w, showTestCardWindow env wc s = .ok s' ∧ s'.testCardWindow = some w
      ∧ w.options = wc ∧ (w.fullScreen || w.simpleFullScreen) = wc.fullscreen
      ∧ s'.testCardWindowScreen = some s.config.screen ∧ s'.config = s.config
      ∧ s'.headlessExportMode = s.headlessExportMode ∧ s'.manageTimers = s.manageTimers
      ∧ s'.trace = s.trace ++ Effect.newBrowserWindow wc ::
          (if s.config.windowed || s.headlessExportMode then
            [Effect.setBounds wc.width wc.height] else []) := by
  unfold showTestCardWindow
  by_cases hc : (s.config.windowed || s.headlessExportMode) = true
  · simp only [State.emit, hc, if_true]
    refine ⟨_, _, rfl, rfl, rfl, ?_, rfl, rfl, rfl, rfl, ?_⟩
    · cases wc.fullscreen <;> simp
    · simp
  · simp only [State.emit, hc, if_false]
    refine ⟨_, _, rfl, rfl, rfl, ?_, rfl, rfl, rfl, rfl, ?_⟩
    · cases wc.fullscreen <;> simp
    · simp

/-- The function `closeTestCard` on a live window returns the state with no window, no placement
marker and no pending resize timer, having called `close()` and `clearTimeout`. -/
theorem closeTestCard_spec (s : State) (w : BrowserWindow) (hw : s.testCardWindow = some w) :
    closeTestCard s = .ok
      { s with testCardWindow := none, testCardWindowScreen := none,
               testCardWindowResizeTimer := false,
               trace := s.trace ++ [Effect.close, Effect.clearTimeoutResize] } := by
  unfold closeTestCard
  rw [hw]
  simp [State.emit]

/-- The function `reopenTestCard` on a live window closes it, forces `config.visible = true` and leaves
one more `manageTestCardWindow` timer pending. -/
theorem reopenTestCard_spec (s : State) (w : BrowserWindow) (hw : s.testCardWindow = some w) :
    reopenTestCard s = .ok
      { s with config := { s.config with visible := true },
               testCardWindow := none, testCardWindowScreen := none,
               testCardWindowResizeTimer := false,
               manageTimers := s.manageTimers + 1,
               trace := s.trace ++
                 [Effect.close, Effect.clearTimeoutResize, Effect.setTimeoutManage] } := by
  unfold reopenTestCard
  rw [closeTestCard_spec s w hw]
  simp [State.emit, bind, Except.bind]

/-- When no display has the id `config.screen`, neither loop of `setupNewTestCardWindow`
assigns anything: the options keep the initial size `winWidth` x `winHeight`, carry no
position, and ask for fullscreen exactly when the configuration is not windowed. -/
theorem setupWindowConfig_absent (env : Env) (config : Config)
    (habs : ∀ d ∈ env.displays, d.id ≠ config.screen) :
    setupWindowConfig env config
      = { show_ := false, frame := false, width := config.winWidth,
          height := config.winHeight, x := none, y := none,
          fullscreen := !config.windowed, simpleFullscreen := none,
          minWidth := none, minHeight := none } := by
  unfold setupWindowConfig
  cases hwin : config.windowed
  · simp only [Bool.not_false, if_true]
    apply foldl_fixed
    intro d hd
    simp [habs d hd]
  · simp only [Bool.not_true, Bool.false_eq_true, if_false]
    apply foldl_fixed
    intro d hd
    simp [habs d hd]

/-- The windowed loop of `setupNewTestCardWindow` when every display with the id
`config.screen` has the bounds of `d`: the position is the one computed from `d`. -/
theorem windowedLoop_eq (config : Config) (d : Display) (ds : List Display)
    (hu : ∀ d' ∈ ds, d'.id = config.screen → d'.bounds = d.bounds) (wc : WindowConfig) :
    ds.foldl
        (fun (windowConfig : WindowConfig) disp =>
          if disp.id = config.screen then
            { windowConfig with
              x := some ((disp.bounds.x : ℚ) + ((disp.bounds.width : ℚ) - config.winWidth) / 2)
              y := some ((disp.bounds.y : ℚ)
                    + ((disp.bounds.height : ℚ) - config.winHeight) / 2) }
          else windowConfig)
        wc
      = if ∃ d' ∈ ds, d'.id = config.screen then
          { wc with
            x := some ((d.bounds.x : ℚ) + ((d.bounds.width : ℚ) - config.winWidth) / 2)
            y := some ((d.bounds.y : ℚ) + ((d.bounds.height : ℚ) - config.winHeight) / 2) }
        else wc := by
  induction ds generalizing wc with
  | nil => simp
  | cons a ds ih =>
    have hu' : ∀ d' ∈ ds, d'.id = config.screen → d'.bounds = d.bounds :=
      fun d' hd' => hu d' (List.mem_cons_of_mem a hd')
    rw [List.foldl_cons, ih hu']
    by_cases ha : a.id = config.screen
    · have hb := hu a (List.mem_cons_self a ds) ha
      simp only [ha, if_true, hb]
      split_ifs with h1 h2 h2
      · rfl
      · exact absurd ⟨a, List.mem_cons_self a ds, ha⟩ h2
      · rfl
      · exact absurd ⟨a, List.mem_cons_self a ds, ha⟩ h2
    · simp only [ha, if_false]
      simp [ha]

/-- The window `showTestCardWindow` constructs has not been shown. -/
theorem showTestCardWindow_shown (env : Env) (wc : WindowConfig) (s s' : State)
    (w : BrowserWindow) (h : showTestCardWindow env wc s = .ok s')
    (hw : s'.testCardWindow = some w) : w.shown = false := by
  unfold showTestCardWindow at h
  simp only [State.emit] at h
  split_ifs at h
  all_goals
    injection h with h
    subst h
    injection hw with hw
    subst hw
    rfl

/-- The capture-completion handlers on a live surface with `config.visible = false`:
headless export mode is switched off and the surface is closed. -/
theorem saveAsPNG_hidden (s : State) (w : BrowserWindow) (hw : s.testCardWindow = some w)
    (hv : s.config.visible = false) :
    saveAsPNG s = .ok { s with headlessExportMode := false, testCardWindow := none,
                               trace := s.trace ++ [Effect.close] }
    ∧ setAsWallpaper s = .ok { s with headlessExportMode := false, testCardWindow := none,
                                      trace := s.trace ++ [Effect.close] } := by
  unfold saveAsPNG setAsWallpaper
  simp [hw, hv, State.emit]

/-- A property kept by the steps of a left fold on the elements of the list holds of its
result. -/
theorem foldl_keeps_mem {α β : Type} (P : β → Prop) (f : β → α → β) :
    ∀ (l : List α) (b : β), (∀ b, ∀ a ∈ l, P b → P (f b a)) → P b → P (l.foldl f b) := by
  intro l
  induction l with
  | nil => intro b _ hb; exact hb
  | cons a l ih =>
    intro b hstep hb
    exact ih (f b a) (fun b' a' ha' => hstep b' a' (List.mem_cons_of_mem a ha'))
      (hstep b a (List.mem_cons_self a l) hb)

/-- The fullscreen loop of `setupNewTestCardWindow` when `d` is in the topology and every
display with the id `config.screen` has the bounds of `d`: position and size are the
bounds of `d`. -/
theorem setupWindowConfig_fullscreen_placed (env : Env) (config : Config) (d : Display)
    (hwin : config.windowed = false) (hd : d ∈ env.displays) (hid : d.id = config.screen)
    (hu : ∀ d' ∈ env.displays, d'.id = config.screen → d'.bounds = d.bounds) :
    (setupWindowConfig env config).x = some (d.bounds.x : ℚ)
    ∧ (setupWindowConfig env config).y = some (d.bounds.y : ℚ)
    ∧ (setupWindowConfig env config).width = d.bounds.width
    ∧ (setupWindowConfig env config).height = d.bounds.height := by
  unfold setupWindowConfig
  simp only [hwin, Bool.not_false, if_true]
  have hex : ∃ d' ∈ env.displays, d'.id = config.screen := ⟨d, hd, hid⟩
  generalize env.displays = ds at hu hex
  clear hd
  generalize ({ show_ := false, frame := false, width := config.winWidth,
                height := config.winHeight, x := none, y := none, fullscreen := true,
                simpleFullscreen := none, minWidth := none, minHeight := none }
              : WindowConfig) = wc
  induction ds generalizing wc with
  | nil =>
    obtain ⟨d', hd', -⟩ := hex
    cases hd'
  | cons a ds ih =>
    rw [List.foldl_cons]
    by_cases ha : a.id = config.screen
    · have hb := hu a (List.mem_cons_self a ds) ha
      apply foldl_keeps_mem
        (fun wc : WindowConfig => wc.x = some (d.bounds.x : ℚ) ∧ wc.y = some (d.bounds.y : ℚ)
          ∧ wc.width = d.bounds.width ∧ wc.height = d.bounds.height)
      · intro b a' ha' hP
        by_cases hid' : a'.id = config.screen
        · have hb' := hu a' (List.mem_cons_of_mem a ha') hid'
          simp [hid', hb']
        · simp only [hid', if_false]
          exact hP
      · simp [ha, hb]
    · simp only [ha, if_false]
      apply ih (fun d' hd' => hu d' (List.mem_cons_of_mem a hd'))
      obtain ⟨d', hd', hid'⟩ := hex
      rcases List.mem_cons.mp hd' with h | h
      · rw [h] at hid'
        exact absurd hid' ha
      · exact ⟨d', h, hid'⟩

/-- The value of `Math.round`: `n` when `n ≤ q + 1/2 < n + 1`. -/
theorem mathRound_eq (q : ℚ) (n : Int) (h1 : (n : ℚ) ≤ q + 1 / 2) (h2 : q + 1 / 2 < n + 1) :
    mathRound q = n := by
  unfold mathRound
  show ⌊q + 1 / 2⌋ = n
  rw [Int.floor_eq_iff]
  exact ⟨h1, h2⟩

/-- A sorted list is its elements up to `t` followed by its elements above `t`. -/
theorem filter_le_append_filter_gt (t : Nat) :
    ∀ l : List Nat, l.Pairwise (fun a b => a ≤ b) →
      l.filter (fun due => due ≤ t) ++ l.filter (fun due => ¬ due ≤ t) = l := by
  intro l
  induction l with
  | nil => intro _; rfl
  | cons a l ih =>
    intro h
    rw [List.pairwise_cons] at h
    by_cases ha : a ≤ t
    · simp only [List.filter_cons, ha, decide_True, if_true, not_true_eq_false, decide_False,
        Bool.false_eq_true, if_false, List.cons_append]
      rw [ih h.2]
    · have hall : ∀ b ∈ l, ¬ b ≤ t := fun b hb hbt => ha (le_trans (h.1 b hb) hbt)
      have h1 : (a :: l).filter (fun due => due ≤ t) = [] := by
        rw [List.filter_eq_nil_iff]
        intro b hb
        rcases List.mem_cons.mp hb with hb | hb
        · simp [hb, ha]
        · simp [hall b hb]
      have h2 : (a :: l).filter (fun due => ¬ due ≤ t) = a :: l := by
        rw [List.filter_eq_self]
        intro b hb
        rcases List.mem_cons.mp hb with hb | hb
        · simp [hb, ha]
        · simp [hall b hb]
      rw [h1, h2]
      rfl

/-- Source `updateScreens` touches neither the pending timers nor the record of runs. -/
theorem updateScreens_timers (env : Env) (s : State) (k : ScreenTracker) :
    (updateScreens env s k).timers = k.timers ∧ (updateScreens env s k).runs = k.runs := by
  unfold updateScreens
  cases s.testCardWindow with
  | none =>
    dsimp only
    split_ifs <;> exact ⟨rfl, rfl⟩
  | some w =>
    dsimp only
    apply foldl_keeps (fun k' : ScreenTracker => k'.timers = k.timers ∧ k'.runs = k.runs)
    · intro b a hb
      dsimp only
      split_ifs
      · exact hb
      · exact hb
    · split_ifs <;> exact ⟨rfl, rfl⟩

/-- Running `updateScreens` for each due time in `dues` appends `dues` to the record of
runs and leaves the pending timers alone. -/
theorem runLoop_spec (host : Nat → Env) (s : State) (dues : List Nat) (k : ScreenTracker) :
    (dues.foldl
        (fun k due => { updateScreens (host due) s k with runs := k.runs ++ [due] }) k).timers
      = k.timers
    ∧ (dues.foldl
        (fun k due => { updateScreens (host due) s k with runs := k.runs ++ [due] }) k).runs
      = k.runs ++ dues := by
  induction dues generalizing k with
  | nil => simp
  | cons d dues ih =>
    rw [List.foldl_cons]
    obtain ⟨h1, h2⟩ := ih { updateScreens (host d) s k with runs := k.runs ++ [d] }
    rw [h1, h2]
    exact ⟨(updateScreens_timers (host d) s k).1, by simp⟩

/-- The event loop up to `now` moves the timers due by `now` from the pending timers to the
record of runs, in the order they were set. -/
theorem runScreenTimers_spec (host : Nat → Env) (s : State) (now : Nat) (k : ScreenTracker) :
    (runScreenTimers host s now k).timers = k.timers.filter (fun due => ¬ due ≤ now)
    ∧ (runScreenTimers host s now k).runs
        = k.runs ++ k.timers.filter (fun due => due ≤ now) := by
  unfold runScreenTimers
  exact runLoop_spec host s _ _

/-- Over a nondecreasing sequence of display events, every event adds one timer due 500 ms
later and none is ever dropped: the runs so far followed by the pending timers are the
earlier ones followed by one due time per event. -/
theorem displayEvents_spec (host : Nat → Env) (s : State) :
    ∀ (times : List Nat) (k : ScreenTracker),
      times.Pairwise (fun a b => a ≤ b) →
      k.timers.Pairwise (fun a b => a ≤ b) →
      (∀ d ∈ k.timers, ∀ t ∈ times, d ≤ t + 500) →
      (displayEvents host s times k).runs ++ (displayEvents host s times k).timers
        = k.runs ++ k.timers ++ times.map (fun t => t + 500) := by
  intro times
  induction times with
  | nil => intro k _ _ _; simp [displayEvents]
  | cons t times ih =>
    intro k hts hk hb
    rw [List.pairwise_cons] at hts
    obtain ⟨htm, hrn⟩ := runScreenTimers_spec host s t k
    have hstep : displayEvents host s (t :: times) k
        = displayEvents host s times (onDisplayEvent t (runScreenTimers host s t k)) := by
      simp [displayEvents]
    have htimers : (onDisplayEvent t (runScreenTimers host s t k)).timers
        = k.timers.filter (fun due => ¬ due ≤ t) ++ [t + 500] := by
      simp [onDisplayEvent, htm]
    have hruns : (onDisplayEvent t (runScreenTimers host s t k)).runs
        = k.runs ++ k.timers.filter (fun due => due ≤ t) := by
      simp [onDisplayEvent, hrn]
    rw [hstep, ih (onDisplayEvent t (runScreenTimers host s t k)) hts.2, hruns, htimers]
    · have hsplit := filter_le_append_filter_gt t k.timers hk
      calc k.runs ++ k.timers.filter (fun due => due ≤ t)
              ++ (k.timers.filter (fun due => ¬ due ≤ t) ++ [t + 500])
              ++ times.map (fun t => t + 500)
          = k.runs ++ (k.timers.filter (fun due => due ≤ t)
              ++ k.timers.filter (fun due => ¬ due ≤ t)) ++ [t + 500]
              ++ times.map (fun t => t + 500) := by simp [List.append_assoc]
        _ = k.runs ++ k.timers ++ (t :: times).map (fun t => t + 500) := by
            rw [hsplit]; simp [List.append_assoc]
    · rw [htimers, List.pairwise_append]
      refine ⟨hk.filter _, List.pairwise_singleton _ _, ?_⟩
      intro a ha b hb'
      rw [List.mem_singleton] at hb'
      rw [hb']
      exact hb a (List.mem_of_mem_filter ha) t (List.mem_cons_self t times)
    · intro d hd t' ht'
      rw [htimers, List.mem_append, List.mem_singleton] at hd
      rcases hd with hd | hd
      · exact hb d (List.mem_of_mem_filter hd) t' (List.mem_cons_of_mem t ht')
      · rw [hd]
        exact Nat.add_le_add_right (hts.1 t' ht') 500

/-- Every timer pending after a sequence of display events was pending before it or was
set by one of the events. -/
theorem displayEvents_timers_mem (host : Nat → Env) (s : State) :
    ∀ (times : List Nat) (k : ScreenTracker) (d : Nat),
      d ∈ (displayEvents host s times k).timers →
      d ∈ k.timers ∨ d ∈ times.map (fun t => t + 500) := by
  intro times
  induction times with
  | nil => intro k d hd; exact Or.inl (by simpa [displayEvents] using hd)
  | cons t times ih =>
    intro k d hd
    have hstep : displayEvents host s (t :: times) k
        = displayEvents host s times (onDisplayEvent t (runScreenTimers host s t k)) := by
      simp [displayEvents]
    rw [hstep] at hd
    rcases ih _ d hd with h | h
    · have htimers : (onDisplayEvent t (runScreenTimers host s t k)).timers
          = k.timers.filter (fun due => ¬ due ≤ t) ++ [t + 500] := by
        simp [onDisplayEvent, (runScreenTimers_spec host s t k).1]
      rw [htimers, List.mem_append, List.mem_singleton] at h
      rcases h with h | h
      · exact Or.inl (List.mem_of_mem_filter h)
      · exact Or.inr (by rw [h]; simp)
    · exact Or.inr (by
        rw [List.map_cons]
        exact List.mem_cons_of_mem _ h)

/-! ## Reconcile: `manageTestCardWindow` -/

/-- C1 as stated fails: `headlessState` is in headless export mode with a live hidden
surface and has `config.visible = false`; `manageTestCardWindow` returns it unchanged, the
surface still live. -/
theorem manage_invisible_headless_keeps_surface :
    headlessState.config.visible = false
    ∧ manageTestCardWindow twoDisplays headlessState = .ok headlessState
    ∧ headlessState.testCardWindow ≠ none := by
  refine ⟨rfl, rfl, ?_⟩
  simp [headlessState]

/-- C1 (amended): for every configuration with `visible = false` and every state that is
not a headless export with a live surface (headless export mode is off, or no surface
exists), `manageTestCardWindow` returns and leaves no live test-card surface. -/
theorem manage_invisible_closed (env : Env) (s : State)
    (hv : s.config.visible = false)
    (hh : s.headlessExportMode = false ∨ s.testCardWindow = none) :
    ∃ s', manageTestCardWindow env s = .ok s' ∧ s'.testCardWindow = none := by
  cases hw : s.testCardWindow with
  | none => exact ⟨s, by simp [manageTestCardWindow, hw, hv], hw⟩
  | some w =>
    have hh' : s.headlessExportMode = false := by
      rcases hh with h | h
      · exact h
      · rw [hw] at h; cases h
    have hm : manageTestCardWindow env s = closeTestCard s := by
      simp [manageTestCardWindow, hw, hv, hh']
    rw [hm]
    unfold closeTestCard
    rw [hw]
    exact ⟨_, rfl, rfl⟩

/-- The amended C1 at a concrete state: an open windowed surface and a hidden
configuration. -/
theorem manage_invisible_closed_witness :
    ∃ s', manageTestCardWindow twoDisplays (openState hiddenWindowed (windowedWindow 0 0) 1)
        = .ok s' ∧ s'.testCardWindow = none :=
  manage_invisible_closed twoDisplays (openState hiddenWindowed (windowedWindow 0 0) 1)
    rfl (Or.inl rfl)

/-- With no surface and a hidden configuration `manageTestCardWindow` does nothing. -/
theorem manage_closed_hidden (env : Env) (s : State) (hw : s.testCardWindow = none)
    (hv : s.config.visible = false) : manageTestCardWindow env s = .ok s := by
  simp [manageTestCardWindow, hw, hv]

/-- The fourth branch of `manageTestCardWindow`: what it does with a live surface once the
first three conditions have failed. -/
theorem manage_mode_branch (env : Env) (s : State) (w : BrowserWindow)
    (hw : s.testCardWindow = some w)
    (h : s.config.visible = false ∧ s.headlessExportMode = true
      ∨ s.config.visible = true ∧ s.testCardWindowScreen = some s.config.screen) :
    manageTestCardWindow env s
      = if (w.fullScreen || w.simpleFullScreen) = !s.config.windowed then .ok s
        else reopenTestCard s := by
  unfold manageTestCardWindow
  rcases h with ⟨hv, hh⟩ | ⟨hv, hm⟩
  · cases hf : w.fullScreen <;> cases hsf : w.simpleFullScreen <;>
      cases hwin : s.config.windowed <;> simp [hw, hv, hh, hf, hsf, hwin]
  · cases hf : w.fullScreen <;> cases hsf : w.simpleFullScreen <;>
      cases hwin : s.config.windowed <;> simp [hw, hv, hm, hf, hsf, hwin]

/-- A windowed screen change whose target display is not in the topology changes
nothing. -/
theorem manage_move_absent (env : Env) (s : State) (w : BrowserWindow)
    (hw : s.testCardWindow = some w) (hv : s.config.visible = true)
    (hwin : s.config.windowed = true) (hne : some s.config.screen ≠ s.testCardWindowScreen)
    (habs : ¬ ∃ d ∈ env.displays, d.id = s.config.screen) :
    manageTestCardWindow env s = .ok s := by
  unfold manageTestCardWindow moveTestCardToNewScreen
  rw [moveLoop_eq]
  simp [hw, hv, hwin, habs]
  intro h
  exact absurd h hne

/-- C2 as stated fails: with a simple-fullscreen surface on `D2` and a configuration that
asks for a windowed surface on `D1`, the first `manageTestCardWindow` only updates the
placement marker and the second one, run on the state the first one left with the same
configuration and topology, closes the surface. -/
theorem manage_second_call_destroys :
    manageTestCardWindow twoDisplays
        (openState { hiddenWindowed with visible := true } simpleFullscreenWindowD2 2)
      = .ok (openState { hiddenWindowed with visible := true } simpleFullscreenWindowD2 1)
    ∧ manageTestCardWindow twoDisplays
        (openState { hiddenWindowed with visible := true } simpleFullscreenWindowD2 1)
      = .ok { closedState { hiddenWindowed with visible := true } with
              manageTimers := 1
              trace := [Effect.close, Effect.clearTimeoutResize, Effect.setTimeoutManage] } :=
  ⟨rfl, rfl⟩

/-- C2 (amended): whenever the first `manageTestCardWindow` returns `s1`, has scheduled no
re-run (it did not go through `reopenTestCard`) and leaves no surface whose live mode
disagrees with `config.windowed`, a second call with the same configuration and topology
returns `s1` itself: no host call is added to the trace and the surface handle, the
placement marker and the configuration are as the first call left them. -/
theorem manage_idempotent (env : Env) (s s1 : State)
    (h1 : manageTestCardWindow env s = .ok s1)
    (ht : s1.manageTimers = s.manageTimers)
    (hm : ∀ w, s1.testCardWindow = some w →
      (w.fullScreen || w.simpleFullScreen) = !s1.config.windowed) :
    manageTestCardWindow env s1 = .ok s1 := by
  have reopen_absurd : ∀ w, s.testCardWindow = some w →
      reopenTestCard s = .ok s1 → False := by
    intro w hw h
    rw [reopenTestCard_spec s w hw] at h
    injection h with h
    subst h
    simp at ht
  have mode_case : ∀ w, s.testCardWindow = some w →
      (s.config.visible = false ∧ s.headlessExportMode = true
        ∨ s.config.visible = true ∧ s.testCardWindowScreen = some s.config.screen) →
      manageTestCardWindow env s1 = .ok s1 := by
    intro w hw h
    rw [manage_mode_branch env s w hw h] at h1
    split_ifs at h1 with hmode
    · injection h1 with h1
      subst h1
      rw [manage_mode_branch env s w hw h, if_pos hmode]
    · exact (reopen_absurd w hw h1).elim
  cases hw : s.testCardWindow with
  | none =>
    cases hv : s.config.visible with
    | false =>
      rw [manage_closed_hidden env s hw hv] at h1
      injection h1 with h1
      subst h1
      exact manage_closed_hidden env s hw hv
    | true =>
      obtain ⟨s', w, hs, hw', -, -, hmk, hcfg, -, -, -⟩ :=
        showTestCardWindow_spec env (setupWindowConfig env s.config) s
      have h1' : manageTestCardWindow env s = .ok s' := by
        rw [← hs]
        simp [manageTestCardWindow, hw, hv, setupNewTestCardWindow]
      rw [h1'] at h1
      injection h1 with h1
      subst h1
      have hv' : s'.config.visible = true := by rw [hcfg]; exact hv
      have hmk' : s'.testCardWindowScreen = some s'.config.screen := by rw [hcfg]; exact hmk
      rw [manage_mode_branch env s' w hw' (Or.inr ⟨hv', hmk'⟩), if_pos (hm w hw')]
  | some w =>
    cases hv : s.config.visible with
    | false =>
      cases hh : s.headlessExportMode with
      | false =>
        have h1' : manageTestCardWindow env s = closeTestCard s := by
          simp [manageTestCardWindow, hw, hv, hh]
        rw [h1', closeTestCard_spec s w hw] at h1
        injection h1 with h1
        subst h1
        exact manage_closed_hidden env _ rfl hv
      | true => exact mode_case w hw (Or.inl ⟨hv, hh⟩)
    | true =>
      by_cases hmk : s.testCardWindowScreen = some s.config.screen
      · exact mode_case w hw (Or.inr ⟨hv, hmk⟩)
      · have hne : some s.config.screen ≠ s.testCardWindowScreen := fun h => hmk h.symm
        have h1' : manageTestCardWindow env s = moveTestCardToNewScreen env s := by
          simp [manageTestCardWindow, hw, hv, hne]
        rw [h1'] at h1
        unfold moveTestCardToNewScreen at h1
        cases hwin : s.config.windowed with
        | false =>
          simp only [hwin, Bool.false_eq_true, if_false] at h1
          exact (reopen_absurd w hw h1).elim
        | true =>
          simp only [hwin, if_true] at h1
          rw [moveLoop_eq] at h1
          split_ifs at h1 with hex
          · injection h1 with h1
            subst h1
            rw [manage_mode_branch env
              { s with testCardWindowScreen := some s.config.screen } w hw (Or.inr ⟨hv, rfl⟩),
              if_pos (hm w hw)]
          · injection h1 with h1
            subst h1
            exact manage_move_absent env s w hw hv hwin hne hex

/-- The amended C2 at a concrete state: no surface and a visible windowed configuration;
the first call creates the surface and the second one changes nothing. -/
theorem manage_idempotent_witness :
    manageTestCardWindow twoDisplays
        { closedState { hiddenWindowed with visible := true } with
          testCardWindow := some
            { options := setupWindowConfig twoDisplays { hiddenWindowed with visible := true }
              bounds := ⟨0, 0, 800, 600⟩, fullScreen := false, simpleFullScreen := false,
              shown := false }
          testCardWindowScreen := some 1
          trace :=
            [Effect.newBrowserWindow
               (setupWindowConfig twoDisplays { hiddenWindowed with visible := true }),
             Effect.setBounds 800 600] }
      = .ok
        { closedState { hiddenWindowed with visible := true } with
          testCardWindow := some
            { options := setupWindowConfig twoDisplays { hiddenWindowed with visible := true }
              bounds := ⟨0, 0, 800, 600⟩, fullScreen := false, simpleFullScreen := false,
              shown := false }
          testCardWindowScreen := some 1
          trace :=
            [Effect.newBrowserWindow
               (setupWindowConfig twoDisplays { hiddenWindowed with visible := true }),
             Effect.setBounds 800 600] } :=
  manage_idempotent twoDisplays (closedState { hiddenWindowed with visible := true }) _
    rfl rfl (by intro w hw; injection hw with hw; subst hw; rfl)

/-- C3 as stated fails: with a fullscreen surface on `D1` and a configuration that asks for
a windowed surface on `D2`, `manageTestCardWindow` only moves the placement marker to `D2`;
it schedules no re-run, so the re-run step finds no timer, and the trace stays empty: no
destroy and no create, and the surface is still fullscreen. -/
theorem mode_switch_with_screen_change_keeps_surface :
    manageTestCardWindow twoDisplays
        (openState { hiddenWindowed with visible := true, screen := 2 } fullscreenWindow 1)
      = .ok (openState { hiddenWindowed with visible := true, screen := 2 } fullscreenWindow 2)
    ∧ fireManageTimer twoDisplays
        (openState { hiddenWindowed with visible := true, screen := 2 } fullscreenWindow 2)
      = .ok (openState { hiddenWindowed with visible := true, screen := 2 } fullscreenWindow 2)
    ∧ (openState { hiddenWindowed with visible := true, screen := 2 } fullscreenWindow 2).trace
      = []
    ∧ fullscreenWindow.fullScreen = true :=
  ⟨rfl, rfl, rfl, rfl⟩

/-- C3 (amended): for every state with a live surface whose live mode disagrees with
`config.windowed`, when `config.visible` is true and the call is not a windowed screen
change (`config.screen` is the last explicit placement, or `config.windowed` is false),
`manageTestCardWindow` closes the surface and schedules its re-run, and the re-run creates
one surface in the mode the configuration asks for. The host calls added to the trace are
exactly `close`, then `new BrowserWindow`, then at most a `setBounds` on the new window;
nothing is called on the old surface but `close`. -/
theorem mode_switch_recreates (env : Env) (s : State) (w : BrowserWindow)
    (hw : s.testCardWindow = some w)
    (hmode : (w.fullScreen || w.simpleFullScreen) ≠ !s.config.windowed)
    (hv : s.config.visible = true)
    (hs : s.testCardWindowScreen = some s.config.screen ∨ s.config.windowed = false) :
    ∃ s1 s2 w2,
      manageTestCardWindow env s = .ok s1
      ∧ s1.testCardWindow = none
      ∧ s1.trace = s.trace ++ [Effect.close, Effect.clearTimeoutResize, Effect.setTimeoutManage]
      ∧ fireManageTimer env s1 = .ok s2
      ∧ s2.testCardWindow = some w2
      ∧ (w2.fullScreen || w2.simpleFullScreen) = !s.config.windowed
      ∧ w2.options = setupWindowConfig env s.config
      ∧ s2.trace = s1.trace ++ Effect.newBrowserWindow (setupWindowConfig env s.config) ::
          (if s.config.windowed || s.headlessExportMode then
            [Effect.setBounds (setupWindowConfig env s.config).width
              (setupWindowConfig env s.config).height] else []) := by
  have hcfg : ({ s.config with visible := true } : Config) = s.config := by
    cases hc : s.config
    rw [hc] at hv
    simp only at hv
    simp [hv]
  have h1 : manageTestCardWindow env s = reopenTestCard s := by
    by_cases hmk : s.testCardWindowScreen = some s.config.screen
    · rw [manage_mode_branch env s w hw (Or.inr ⟨hv, hmk⟩), if_neg hmode]
    · have hwin : s.config.windowed = false := by
        rcases hs with h | h
        · exact absurd h hmk
        · exact h
      have hne : some s.config.screen ≠ s.testCardWindowScreen := fun h => hmk h.symm
      simp [manageTestCardWindow, moveTestCardToNewScreen, hw, hv, hne, hwin]
  rw [h1, reopenTestCard_spec s w hw, hcfg]
  obtain ⟨s2, w2, hs2, hw2, hopt, hfs, -, -, -, -, htr⟩ :=
    showTestCardWindow_spec env (setupWindowConfig env s.config)
      { s with testCardWindow := none, testCardWindowScreen := none,
               testCardWindowResizeTimer := false,
               trace := s.trace ++
                 [Effect.close, Effect.clearTimeoutResize, Effect.setTimeoutManage] }
  refine ⟨_, s2, w2, rfl, rfl, rfl, ?_, hw2, ?_, hopt, htr⟩
  · rw [← hs2]
    simp [fireManageTimer, manageTestCardWindow, setupNewTestCardWindow, hv]
  · rw [hfs, setupWindowConfig_fullscreen]

/-- The amended C3 at a concrete state: a windowed surface on `D1` and a configuration
that asks for fullscreen on the same display. -/
theorem mode_switch_recreates_witness :
    ∃ s1 s2 w2,
      manageTestCardWindow twoDisplays
        (openState { hiddenWindowed with visible := true, windowed := false }
          (windowedWindow 560 240) 1) = .ok s1
      ∧ s1.testCardWindow = none
      ∧ s1.trace = [] ++ [Effect.close, Effect.clearTimeoutResize, Effect.setTimeoutManage]
      ∧ fireManageTimer twoDisplays s1 = .ok s2
      ∧ s2.testCardWindow = some w2
      ∧ (w2.fullScreen || w2.simpleFullScreen) = !false
      ∧ w2.options = setupWindowConfig twoDisplays
          { hiddenWindowed with visible := true, windowed := false }
      ∧ s2.trace = s1.trace ++ Effect.newBrowserWindow (setupWindowConfig twoDisplays
            { hiddenWindowed with visible := true, windowed := false }) ::
          (if false || false then
            [Effect.setBounds (setupWindowConfig twoDisplays
                { hiddenWindowed with visible := true, windowed := false }).width
              (setupWindowConfig twoDisplays
                { hiddenWindowed with visible := true, windowed := false }).height] else []) :=
  mode_switch_recreates twoDisplays
    (openState { hiddenWindowed with visible := true, windowed := false }
      (windowedWindow 560 240) 1)
    (windowedWindow 560 240) rfl (by decide) rfl (Or.inl rfl)

/-! ## Creation geometry: `setupNewTestCardWindow` -/

/-- C4 as stated fails: with displays `D1` (primary, bounds `(0, 0, 1920, 1080)`) and `D2`
and a fullscreen configuration whose screen id `3` is on no display, the surface
`manageTestCardWindow` creates is requested with no position and with the configured size
800x600, not with the origin and the size of the primary display, and the placement marker
is `3`; the options differ from those built for `config.screen = primaryDisplay`. -/
theorem absent_screen_not_placed_on_primary :
    (∀ d ∈ twoDisplays.displays, d.id ≠ 3)
    ∧ (∃ s' w,
        manageTestCardWindow twoDisplays
          (closedState { hiddenWindowed with visible := true, windowed := false, screen := 3 })
          = .ok s'
        ∧ s'.testCardWindow = some w
        ∧ w.options.x = none ∧ w.options.y = none
        ∧ w.options.width = 800 ∧ w.options.height = 600
        ∧ s'.testCardWindowScreen = some 3)
    ∧ twoDisplays.primaryDisplay = displayD1.id
    ∧ displayD1.bounds = ⟨0, 0, 1920, 1080⟩
    ∧ setupWindowConfig twoDisplays
          { hiddenWindowed with visible := true, windowed := false, screen := 3 }
        ≠ setupWindowConfig twoDisplays
          { hiddenWindowed with visible := true, windowed := false,
                                screen := twoDisplays.primaryDisplay } := by
  refine ⟨by decide, ⟨_, _, rfl, rfl, rfl, rfl, rfl, rfl, rfl⟩, rfl, rfl, ?_⟩
  intro h
  have hwidth := congrArg WindowConfig.width h
  revert hwidth
  decide

/-- C4 (amended): for every configuration whose screen id is on no display of the topology,
`manageTestCardWindow` with no surface and `visible = true` raises no error and creates the
surface with no requested position (placement is left to the host), with the requested
size `winWidth` x `winHeight`, in the mode given by `config.windowed`; the placement marker
is set to `config.screen`. -/
theorem absent_screen_created_unplaced (env : Env) (s : State)
    (hw : s.testCardWindow = none) (hv : s.config.visible = true)
    (habs : ∀ d ∈ env.displays, d.id ≠ s.config.screen) :
    ∃ s' w,
      manageTestCardWindow env s = .ok s'
      ∧ s'.testCardWindow = some w
      ∧ w.options.x = none ∧ w.options.y = none
      ∧ w.options.width = s.config.winWidth ∧ w.options.height = s.config.winHeight
      ∧ w.options.fullscreen = !s.config.windowed
      ∧ s'.testCardWindowScreen = some s.config.screen := by
  obtain ⟨s', w, hs, hw', hopt, -, hmk, -, -, -, -⟩ :=
    showTestCardWindow_spec env (setupWindowConfig env s.config) s
  refine ⟨s', w, ?_, hw', ?_, ?_, ?_, ?_, ?_, hmk⟩
  · rw [← hs]
    simp [manageTestCardWindow, setupNewTestCardWindow, hw, hv]
  all_goals rw [hopt, setupWindowConfig_absent env s.config habs]

/-- The amended C4 at a concrete input: displays `D1` and `D2`, screen id `3`. -/
theorem absent_screen_created_unplaced_witness :
    ∃ s' w,
      manageTestCardWindow twoDisplays
        (closedState { hiddenWindowed with visible := true, screen := 3 }) = .ok s'
      ∧ s'.testCardWindow = some w
      ∧ w.options.x = none ∧ w.options.y = none
      ∧ w.options.width = 800 ∧ w.options.height = 600
      ∧ w.options.fullscreen = !true
      ∧ s'.testCardWindowScreen = some 3 :=
  absent_screen_created_unplaced twoDisplays
    (closedState { hiddenWindowed with visible := true, screen := 3 }) rfl rfl (by decide)

/-- C5 as stated fails: on display `D1`, with bounds `(0, 0, 1920, 1080)` and work area
`(0, 25, 1920, 1055)`, an 800x600 windowed surface is requested at `y = 240`, the centre of
the bounds, whereas the centre of the work area is `y = 25 + (1055 - 600) / 2 = 252.5`. -/
theorem windowed_create_not_centered_in_workArea :
    displayD1 ∈ twoDisplays.displays
    ∧ displayD1.id = ({ hiddenWindowed with visible := true } : Config).screen
    ∧ (setupWindowConfig twoDisplays { hiddenWindowed with visible := true }).y = some 240
    ∧ (setupWindowConfig twoDisplays { hiddenWindowed with visible := true }).y
        ≠ some ((displayD1.workArea.y : ℚ)
            + ((displayD1.workArea.height : ℚ)
                - ({ hiddenWindowed with visible := true } : Config).winHeight) / 2) := by
  refine ⟨by decide, rfl, ?_, ?_⟩
  · simp [setupWindowConfig, twoDisplays, displayD1, displayD2, hiddenWindowed]
    norm_num
  · simp [setupWindowConfig, twoDisplays, displayD1, displayD2, hiddenWindowed]
    norm_num

/-- C5 (amended): for every windowed configuration and every topology in which `d` is the
display with id `config.screen`, the surface `setupNewTestCardWindow` creates is requested
centred within the BOUNDS of `d`, `x = bounds.x + (bounds.width - winWidth) / 2` and
`y = bounds.y + (bounds.height - winHeight) / 2`, with size `winWidth` x `winHeight`, not
fullscreen, and `setBounds` gives the live window that size. -/
theorem windowed_create_centered_in_bounds (env : Env) (s : State) (d : Display)
    (hwin : s.config.windowed = true) (hd : d ∈ env.displays) (hid : d.id = s.config.screen)
    (hu : ∀ d' ∈ env.displays, d'.id = s.config.screen → d' = d) :
    ∃ s' w,
      setupNewTestCardWindow env s = .ok s'
      ∧ s'.testCardWindow = some w
      ∧ w.options.x
          = some ((d.bounds.x : ℚ) + ((d.bounds.width : ℚ) - s.config.winWidth) / 2)
      ∧ w.options.y
          = some ((d.bounds.y : ℚ) + ((d.bounds.height : ℚ) - s.config.winHeight) / 2)
      ∧ w.options.width = s.config.winWidth ∧ w.options.height = s.config.winHeight
      ∧ w.options.fullscreen = false
      ∧ w.bounds.width = s.config.winWidth ∧ w.bounds.height = s.config.winHeight
      ∧ s'.trace = s.trace ++
          [Effect.newBrowserWindow w.options,
           Effect.setBounds s.config.winWidth s.config.winHeight] := by
  have hex : ∃ d' ∈ env.displays, d'.id = s.config.screen := ⟨d, hd, hid⟩
  have hu' : ∀ d' ∈ env.displays, d'.id = s.config.screen → d'.bounds = d.bounds :=
    fun d' hd' h => by rw [hu d' hd' h]
  have hcfg : setupWindowConfig env s.config
      = { show_ := false, frame := false, width := s.config.winWidth,
          height := s.config.winHeight,
          x := some ((d.bounds.x : ℚ) + ((d.bounds.width : ℚ) - s.config.winWidth) / 2),
          y := some ((d.bounds.y : ℚ) + ((d.bounds.height : ℚ) - s.config.winHeight) / 2),
          fullscreen := false, simpleFullscreen := none,
          minWidth := none, minHeight := none } := by
    unfold setupWindowConfig
    simp only [hwin, Bool.not_true, Bool.false_eq_true, if_false]
    rw [windowedLoop_eq s.config d env.displays hu', if_pos hex]
  unfold setupNewTestCardWindow showTestCardWindow
  rw [hcfg]
  simp only [State.emit, hwin, Bool.true_or, if_true]
  refine ⟨_, _, rfl, rfl, rfl, rfl, rfl, rfl, rfl, rfl, rfl, ?_⟩
  simp

/-- The amended C5 at the scenario of the specification: display `D1` at
`(0, 0, 1920, 1080)` and an 800x600 windowed configuration give the position
`(560, 240)`. -/
theorem windowed_create_centered_in_bounds_witness :
    (((0 : Int) : ℚ) + (((1920 : Int) : ℚ) - (800 : Int)) / 2 = 560
      ∧ ((0 : Int) : ℚ) + (((1080 : Int) : ℚ) - (600 : Int)) / 2 = 240)
    ∧ ∃ s' w,
      setupNewTestCardWindow twoDisplays (closedState { hiddenWindowed with visible := true })
        = .ok s'
      ∧ s'.testCardWindow = some w
      ∧ w.options.x = some (((0 : Int) : ℚ) + (((1920 : Int) : ℚ) - (800 : Int)) / 2)
      ∧ w.options.y = some (((0 : Int) : ℚ) + (((1080 : Int) : ℚ) - (600 : Int)) / 2)
      ∧ w.options.width = 800 ∧ w.options.height = 600
      ∧ w.options.fullscreen = false
      ∧ w.bounds.width = 800 ∧ w.bounds.height = 600
      ∧ s'.trace = [] ++ [Effect.newBrowserWindow w.options, Effect.setBounds 800 600] :=
  ⟨by norm_num,
   windowed_create_centered_in_bounds twoDisplays
    (closedState { hiddenWindowed with visible := true }) displayD1 rfl (by decide) rfl
    (by decide)⟩

/-! ## Geometry feedback: resize and move -/

/-- C6: for every state with a live surface, (1) off darwin, when the reported width and
height are each within 2 of `winWidth` and `winHeight`, `handleTestCardResize` returns the
state unchanged (no write, nothing sent); (2) on any platform, when either differs by more
than 2, it returns with `winWidth` and `winHeight` set to exactly the reported bounds,
the other fields of the configuration untouched, and the configuration sent to the control
window; (3) on darwin the write and the send happen whatever the sizes. -/
theorem handleTestCardResize_tolerance (env : Env) (s : State) (w : BrowserWindow)
    (hw : s.testCardWindow = some w) :
    (env.darwin = false → |w.bounds.width - s.config.winWidth| ≤ 2 →
        |w.bounds.height - s.config.winHeight| ≤ 2 →
        handleTestCardResize env s = .ok s)
    ∧ ((2 < |w.bounds.width - s.config.winWidth| ∨ 2 < |w.bounds.height - s.config.winHeight|
          ∨ env.darwin = true) →
        handleTestCardResize env s = .ok
          { s with
            config := { s.config with winWidth := w.bounds.width, winHeight := w.bounds.height }
            trace := s.trace ++ [Effect.sendControlConfig
              { s.config with winWidth := w.bounds.width, winHeight := w.bounds.height }] }) := by
  constructor
  · intro hd hwd hht
    rw [abs_le] at hwd hht
    have hcond : ¬ (s.config.winWidth < w.bounds.width - 2
        ∨ s.config.winWidth > w.bounds.width + 2
        ∨ s.config.winHeight < w.bounds.height - 2
        ∨ s.config.winHeight > w.bounds.height + 2
        ∨ env.darwin = true) := by
      rw [hd]
      simp only [Bool.false_eq_true, or_false]
      omega
    unfold handleTestCardResize
    rw [hw]
    simp only [if_neg hcond]
  · intro h
    have hcond : s.config.winWidth < w.bounds.width - 2
        ∨ s.config.winWidth > w.bounds.width + 2
        ∨ s.config.winHeight < w.bounds.height - 2
        ∨ s.config.winHeight > w.bounds.height + 2
        ∨ env.darwin = true := by
      rcases h with h | h | h
      · rw [lt_abs] at h
        omega
      · rw [lt_abs] at h
        omega
      · exact Or.inr (Or.inr (Or.inr (Or.inr h)))
    unfold handleTestCardResize
    rw [hw]
    simp only [if_pos hcond, State.emit]

/-- C6 at concrete inputs: an 800x600 configuration, off darwin; a reported size of
802x598 leaves the state unchanged, and a reported size of 803x600 is written back. -/
theorem handleTestCardResize_tolerance_witness :
    handleTestCardResize twoDisplays
        (openState { hiddenWindowed with visible := true }
          { windowedWindow 560 240 with bounds := ⟨560, 240, 802, 598⟩ } 1)
      = .ok (openState { hiddenWindowed with visible := true }
          { windowedWindow 560 240 with bounds := ⟨560, 240, 802, 598⟩ } 1)
    ∧ handleTestCardResize twoDisplays
        (openState { hiddenWindowed with visible := true }
          { windowedWindow 560 240 with bounds := ⟨560, 240, 803, 600⟩ } 1)
      = .ok
        { openState { hiddenWindowed with visible := true }
            { windowedWindow 560 240 with bounds := ⟨560, 240, 803, 600⟩ } 1 with
          config := { hiddenWindowed with visible := true, winWidth := 803, winHeight := 600 }
          trace := [] ++ [Effect.sendControlConfig
            { hiddenWindowed with visible := true, winWidth := 803, winHeight := 600 }] } :=
  ⟨(handleTestCardResize_tolerance twoDisplays
      (openState { hiddenWindowed with visible := true }
        { windowedWindow 560 240 with bounds := ⟨560, 240, 802, 598⟩ } 1)
      { windowedWindow 560 240 with bounds := ⟨560, 240, 802, 598⟩ } rfl).1
      rfl (by decide) (by decide),
   (handleTestCardResize_tolerance twoDisplays
      (openState { hiddenWindowed with visible := true }
        { windowedWindow 560 240 with bounds := ⟨560, 240, 803, 600⟩ } 1)
      { windowedWindow 560 240 with bounds := ⟨560, 240, 803, 600⟩ } rfl).2
      (Or.inl (by decide))⟩

/-- C7 fails on the code: with displays `D1` at `(0, 0, 1920, 1080)` and `D2` at
`(1920, 0, 1920, 1080)`, a surface last placed on `D1` and moved to `(1920, 0)`, the origin
of `D2`, makes the `move` handler return the state unchanged: `config.screen` stays `1`
and nothing is sent, because the comparisons `x > disp.bounds.x` and `y > disp.bounds.y`
are strict. -/
theorem onMove_display_origin_ignored :
    displayD2.bounds.x ≤ (windowedWindow 1920 0).bounds.x
    ∧ (windowedWindow 1920 0).bounds.x < displayD2.bounds.x + displayD2.bounds.width
    ∧ displayD2.bounds.y ≤ (windowedWindow 1920 0).bounds.y
    ∧ (windowedWindow 1920 0).bounds.y < displayD2.bounds.y + displayD2.bounds.height
    ∧ onMove twoDisplays
        (openState { hiddenWindowed with visible := true } (windowedWindow 1920 0) 1)
      = .ok (openState { hiddenWindowed with visible := true } (windowedWindow 1920 0) 1) := by
  refine ⟨by decide, by decide, by decide, by decide, rfl⟩

/-- The `move` handler one unit inside `D2`: at `(1921, 1)` the same state gets
`config.screen = 2` and the configuration is sent to the control window. -/
theorem onMove_display_interior_detected :
    onMove twoDisplays
        (openState { hiddenWindowed with visible := true } (windowedWindow 1921 1) 1)
      = .ok
        { openState { hiddenWindowed with visible := true } (windowedWindow 1921 1) 1 with
          config := { hiddenWindowed with visible := true, screen := 2 }
          trace := [Effect.sendControlConfig
            { hiddenWindowed with visible := true, screen := 2 }] } :=
  rfl

/-! ## OSC remote control -/

/-- C8 fails on the code: the address `/animated` matches no `case` of the `switch`,
because the first label `'/animated', '/motion'` is a comma expression whose value is
`'/motion'`; for every value and state the configuration is left unchanged (and is still
sent to the control window). -/
theorem oscMessage_animated_ignored (data : OscValue) (s : State) :
    oscMessage "/animated" data s = s.emit (Effect.sendControlConfig s.config) := by
  simp [oscMessage, comma]

/-- The OSC commands the `switch` does recognise: `/motion` sets `animated`, `/showInfo`
sets `showInfo`, `/name` sets `name`, `/cardType` sets `cardType`, each to the converted
value and leaving the other fields alone. -/
theorem oscMessage_recognised (data : OscValue) (s : State) :
    (oscMessage "/motion" data s).config = { s.config with animated := data.toBoolean }
    ∧ (oscMessage "/showInfo" data s).config = { s.config with showInfo := data.toBoolean }
    ∧ (oscMessage "/name" data s).config = { s.config with name := data.toJsString }
    ∧ (oscMessage "/cardType" data s).config
        = { s.config with cardType := data.toJsString } := by
  refine ⟨?_, ?_, ?_, ?_⟩ <;> simp [oscMessage, comma, State.emit]

/-- Any OSC address other than `/motion`, `/showInfo`, `/name` and `/cardType` leaves
the configuration unchanged. -/
theorem oscMessage_unrecognised (cmd : String) (data : OscValue) (s : State)
    (h1 : cmd ≠ "/motion") (h2 : cmd ≠ "/showInfo") (h3 : cmd ≠ "/name")
    (h4 : cmd ≠ "/cardType") :
    (oscMessage cmd data s).config = s.config := by
  simp [oscMessage, comma, State.emit, h1, h2, h3, h4]

/-! ## Headless capture -/

/-- The state `headlessState` is what `exportCard` produces from the start-up state. -/
theorem exportCard_closed_hiddenWindowed :
    exportCard twoDisplays (closedState hiddenWindowed) = .ok headlessState :=
  rfl

/-- C9 as stated fails: a capture is started with no surface (`exportCard` yields
`headlessState`), the configuration is then written with `visible = true`, and the capture
completes; `saveAsPNG` and `setAsWallpaper` switch headless export mode off but do not
close the surface, which stays live and was never shown. -/
theorem headless_capture_visible_at_completion_keeps_surface :
    exportCard twoDisplays (closedState hiddenWindowed) = .ok headlessState
    ∧ onConfig twoDisplays { hiddenWindowed with visible := true } headlessState
        = .ok headlessStateMadeVisible
    ∧ saveAsPNG headlessStateMadeVisible
        = .ok { headlessStateMadeVisible with headlessExportMode := false }
    ∧ setAsWallpaper headlessStateMadeVisible
        = .ok { headlessStateMadeVisible with headlessExportMode := false }
    ∧ ({ headlessStateMadeVisible with headlessExportMode := false } : State).testCardWindow
        = headlessState.testCardWindow
    ∧ headlessState.testCardWindow ≠ none
    ∧ Effect.close ∉ headlessStateMadeVisible.trace := by
  refine ⟨rfl, rfl, rfl, rfl, rfl, ?_, ?_⟩
  · simp [headlessState]
  · simp [headlessStateMadeVisible, headlessState]

/-- C9 (amended): for every state with no surface and `config.visible = false`,
`exportCard` switches headless export mode on and creates a surface that is not shown, and
when the capture then completes with `config.visible` still false, `saveAsPNG` and
`setAsWallpaper` each switch headless export mode off and close that surface: the final
state has no surface, and the only host calls are the creation, its `setBounds`, and one
`close`. -/
theorem headless_capture_teardown (env : Env) (s : State)
    (hw : s.testCardWindow = none) (hv : s.config.visible = false) :
    ∃ s1 s2 w,
      exportCard env s = .ok s1
      ∧ s1.headlessExportMode = true
      ∧ s1.testCardWindow = some w
      ∧ w.shown = false ∧ w.options.show_ = false
      ∧ s1.trace = s.trace ++
          [Effect.newBrowserWindow (exportWindowConfig env s.config),
           Effect.setBounds (exportWindowConfig env s.config).width
             (exportWindowConfig env s.config).height]
      ∧ saveAsPNG s1 = .ok s2
      ∧ setAsWallpaper s1 = .ok s2
      ∧ s2.testCardWindow = none
      ∧ s2.headlessExportMode = false
      ∧ s2.trace = s1.trace ++ [Effect.close] := by
  have hshow : (exportWindowConfig env s.config).show_ = false := by
    unfold exportWindowConfig
    split_ifs
    · rfl
    · apply foldl_keeps (fun wc : WindowConfig => wc.show_ = false)
      · intro b a hb
        dsimp only
        split_ifs <;> simp [hb]
      · rfl
  obtain ⟨s1, w, hs1, hw1, hopt, -, -, hcfg, hh, -, htr⟩ :=
    showTestCardWindow_spec env (exportWindowConfig env s.config)
      { s with headlessExportMode := true }
  have hexp : exportCard env s = .ok s1 := by
    rw [← hs1]
    simp [exportCard, hw]
  have hv1 : s1.config.visible = false := by rw [hcfg]; exact hv
  have hdone := saveAsPNG_hidden s1 w hw1 hv1
  refine ⟨s1, _, w, hexp, hh, hw1, ?_, ?_, ?_, hdone.1, hdone.2, rfl, rfl, rfl⟩
  · exact showTestCardWindow_shown env _ _ s1 w hs1 hw1
  · rw [hopt]; exact hshow
  · rw [htr]
    simp

/-- The amended C9 at the start-up state with the hidden windowed configuration. -/
theorem headless_capture_teardown_witness :
    ∃ s1 s2 w,
      exportCard twoDisplays (closedState hiddenWindowed) = .ok s1
      ∧ s1.headlessExportMode = true
      ∧ s1.testCardWindow = some w
      ∧ w.shown = false ∧ w.options.show_ = false
      ∧ s1.trace = [] ++
          [Effect.newBrowserWindow (exportWindowConfig twoDisplays hiddenWindowed),
           Effect.setBounds (exportWindowConfig twoDisplays hiddenWindowed).width
             (exportWindowConfig twoDisplays hiddenWindowed).height]
      ∧ saveAsPNG s1 = .ok s2
      ∧ setAsWallpaper s1 = .ok s2
      ∧ s2.testCardWindow = none
      ∧ s2.headlessExportMode = false
      ∧ s2.trace = s1.trace ++ [Effect.close] :=
  headless_capture_teardown twoDisplays (closedState hiddenWindowed) rfl rfl

/-- C10 fails on the code: a capture is started with no surface and the hidden FULLSCREEN
800x600 configuration; `exportCard` creates a hidden window that is not fullscreen. A
`manageTestCardWindow` run in that state (headless export mode on, `visible = false`)
passes the guarded second branch, finds the live mode at odds with `config.windowed` and
goes through `reopenTestCard`: the headless surface is closed, `config.visible` is set to
true and a re-run is scheduled. -/
theorem manage_headless_fullscreen_config_destroys :
    ∃ s1 s2 w,
      exportCard twoDisplays (closedState { hiddenWindowed with windowed := false }) = .ok s1
      ∧ s1.headlessExportMode = true
      ∧ s1.config.visible = false
      ∧ s1.testCardWindow = some w
      ∧ manageTestCardWindow twoDisplays s1 = .ok s2
      ∧ s2.testCardWindow = none
      ∧ s2.config.visible = true
      ∧ s2.manageTimers = 1
      ∧ s2.trace = s1.trace ++
          [Effect.close, Effect.clearTimeoutResize, Effect.setTimeoutManage] :=
  ⟨_, _, _, rfl, rfl, rfl, rfl, rfl, rfl, rfl, rfl, rfl⟩

/-- The windowed half of C10 holds: in headless export mode, with a live surface that is
not fullscreen and a hidden windowed configuration, `manageTestCardWindow` returns the
state unchanged. -/
theorem manage_headless_windowed_noop (env : Env) (s : State) (w : BrowserWindow)
    (hw : s.testCardWindow = some w) (hh : s.headlessExportMode = true)
    (hv : s.config.visible = false) (hwin : s.config.windowed = true)
    (hf : (w.fullScreen || w.simpleFullScreen) = false) :
    manageTestCardWindow env s = .ok s := by
  rw [manage_mode_branch env s w hw (Or.inl ⟨hv, hh⟩), if_pos]
  rw [hf, hwin]
  rfl

/-! ## Screen change on an open surface -/

/-- C11 as stated fails: a windowed 800x600 surface at `(560, 240)` on `D1` and a
configuration that moves it to `D2`. `manageTestCardWindow` only sets the placement marker
to `2`: the trace stays empty (no `setPosition`) and the window still reports `x = 560`,
whereas centred on `D2` it would be at `x = 1920 + (1920 - 800) / 2 = 2480`. -/
theorem windowed_screen_change_not_repositioned :
    manageTestCardWindow twoDisplays
        (openState { hiddenWindowed with visible := true, screen := 2 }
          (windowedWindow 560 240) 1)
      = .ok (openState { hiddenWindowed with visible := true, screen := 2 }
          (windowedWindow 560 240) 2)
    ∧ (openState { hiddenWindowed with visible := true, screen := 2 }
          (windowedWindow 560 240) 2).trace = []
    ∧ (windowedWindow 560 240).bounds.x = 560
    ∧ (displayD2.bounds.x : ℚ) + ((displayD2.bounds.width : ℚ) - (800 : Int)) / 2 = 2480 := by
  refine ⟨rfl, rfl, rfl, ?_⟩
  simp [displayD2]
  norm_num

/-- The explicit placement command does reposition: on the same state `moveWindowTo` with
`D2` calls `setPosition(2480, 240)`, the centre of the bounds of `D2`, and sets the
placement marker to `2`. -/
theorem moveWindowTo_repositions_centered :
    moveWindowTo twoDisplays 2
        (openState { hiddenWindowed with visible := true, screen := 2 }
          (windowedWindow 560 240) 1)
      = .ok
        { openState { hiddenWindowed with visible := true, screen := 2 }
            (windowedWindow 2480 240) 2 with
          trace := [Effect.setPosition 2480 240] } := by
  simp [moveWindowTo, twoDisplays, displayD1, displayD2, openState, hiddenWindowed,
    windowedWindow, State.emit, List.foldlM, bind, Except.bind, pure, Except.pure]
  constructor <;> apply mathRound_eq <;> norm_num

/-- C11 (amended): for every state with a live surface, `config.visible = true` and a last
explicit placement that differs from `config.screen`: with `windowed = true`,
`manageTestCardWindow` keeps the existing surface and makes no host call at all (no
destroy, no create and no reposition); it only sets the placement marker to `config.screen`
when some display has that id, and changes nothing otherwise. With `windowed = false` it
closes the surface and schedules its re-run, and the re-run creates one fullscreen surface
whose placement marker is `config.screen` and whose requested position and size are the
bounds of the display with that id, when the topology has it. -/
theorem screen_change_reconcile (env : Env) (s : State) (w : BrowserWindow)
    (hw : s.testCardWindow = some w) (hv : s.config.visible = true)
    (hne : s.testCardWindowScreen ≠ some s.config.screen) :
    (s.config.windowed = true →
      manageTestCardWindow env s
        = .ok (if ∃ d ∈ env.displays, d.id = s.config.screen then
                { s with testCardWindowScreen := some s.config.screen }
              else s))
    ∧ (s.config.windowed = false →
      ∃ s1 s2 w2,
        manageTestCardWindow env s = .ok s1
        ∧ s1.testCardWindow = none
        ∧ s1.trace = s.trace ++
            [Effect.close, Effect.clearTimeoutResize, Effect.setTimeoutManage]
        ∧ fireManageTimer env s1 = .ok s2
        ∧ s2.testCardWindow = some w2
        ∧ w2.options = setupWindowConfig env s.config
        ∧ w2.options.fullscreen = true
        ∧ s2.testCardWindowScreen = some s.config.screen
        ∧ s2.trace = s1.trace ++ Effect.newBrowserWindow (setupWindowConfig env s.config) ::
            (if s.headlessExportMode then
              [Effect.setBounds (setupWindowConfig env s.config).width
                (setupWindowConfig env s.config).height] else [])
        ∧ ∀ d ∈ env.displays, d.id = s.config.screen →
            (∀ d' ∈ env.displays, d'.id = s.config.screen → d' = d) →
            w2.options.x = some (d.bounds.x : ℚ) ∧ w2.options.y = some (d.bounds.y : ℚ)
            ∧ w2.options.width = d.bounds.width ∧ w2.options.height = d.bounds.height) := by
  have hne' : some s.config.screen ≠ s.testCardWindowScreen := fun h => hne h.symm
  have hm : manageTestCardWindow env s = moveTestCardToNewScreen env s := by
    simp [manageTestCardWindow, hw, hv, hne']
  constructor
  · intro hwin
    rw [hm]
    unfold moveTestCardToNewScreen
    simp only [hwin, if_true]
    rw [moveLoop_eq]
  · intro hwin
    have hcfg : ({ s.config with visible := true } : Config) = s.config := by
      cases hc : s.config
      rw [hc] at hv
      simp only at hv
      simp [hv]
    have h1 : manageTestCardWindow env s = reopenTestCard s := by
      rw [hm]
      simp [moveTestCardToNewScreen, hwin]
    rw [h1, reopenTestCard_spec s w hw, hcfg]
    obtain ⟨s2, w2, hs2, hw2, hopt, -, hmk, -, -, -, htr⟩ :=
      showTestCardWindow_spec env (setupWindowConfig env s.config)
        { s with testCardWindow := none, testCardWindowScreen := none,
                 testCardWindowResizeTimer := false,
                 trace := s.trace ++
                   [Effect.close, Effect.clearTimeoutResize, Effect.setTimeoutManage] }
    refine ⟨_, s2, w2, rfl, rfl, rfl, ?_, hw2, hopt, ?_, hmk, ?_, ?_⟩
    · rw [← hs2]
      simp [fireManageTimer, manageTestCardWindow, setupNewTestCardWindow, hv]
    · rw [hopt, setupWindowConfig_fullscreen, hwin]
      rfl
    · rw [htr]
      simp [hwin]
    · intro d hd hid hu
      rw [hopt]
      exact setupWindowConfig_fullscreen_placed env s.config d hwin hd hid
        (fun d' hd' h => by rw [hu d' hd' h])

/-- The amended C11 at concrete states: the windowed surface on `D1` moved to `D2` keeps
its window and its empty trace, and a fullscreen surface on `D1` moved to `D2` is closed
and created again with the bounds of `D2`. -/
theorem screen_change_reconcile_witness :
    manageTestCardWindow twoDisplays
        (openState { hiddenWindowed with visible := true, screen := 2 }
          (windowedWindow 560 240) 1)
      = .ok (if ∃ d ∈ twoDisplays.displays, d.id = 2 then
              { openState { hiddenWindowed with visible := true, screen := 2 }
                  (windowedWindow 560 240) 1 with testCardWindowScreen := some 2 }
            else openState { hiddenWindowed with visible := true, screen := 2 }
                  (windowedWindow 560 240) 1)
    ∧ ∃ s1 s2 w2,
        manageTestCardWindow twoDisplays
          (openState { hiddenWindowed with visible := true, windowed := false, screen := 2 }
            fullscreenWindow 1) = .ok s1
        ∧ s1.testCardWindow = none
        ∧ s1.trace = [] ++ [Effect.close, Effect.clearTimeoutResize, Effect.setTimeoutManage]
        ∧ fireManageTimer twoDisplays s1 = .ok s2
        ∧ s2.testCardWindow = some w2
        ∧ w2.options = setupWindowConfig twoDisplays
            { hiddenWindowed with visible := true, windowed := false, screen := 2 }
        ∧ w2.options.fullscreen = true
        ∧ s2.testCardWindowScreen = some 2
        ∧ s2.trace = s1.trace ++ Effect.newBrowserWindow (setupWindowConfig twoDisplays
              { hiddenWindowed with visible := true, windowed := false, screen := 2 }) ::
            (if false then
              [Effect.setBounds (setupWindowConfig twoDisplays
                  { hiddenWindowed with visible := true, windowed := false, screen := 2 }).width
                (setupWindowConfig twoDisplays
                  { hiddenWindowed with visible := true, windowed := false,
                                        screen := 2 }).height] else [])
        ∧ ∀ d ∈ twoDisplays.displays, d.id = 2 →
            (∀ d' ∈ twoDisplays.displays, d'.id = 2 → d' = d) →
            w2.options.x = some (d.bounds.x : ℚ) ∧ w2.options.y = some (d.bounds.y : ℚ)
            ∧ w2.options.width = d.bounds.width ∧ w2.options.height = d.bounds.height :=
  ⟨(screen_change_reconcile twoDisplays
      (openState { hiddenWindowed with visible := true, screen := 2 }
        (windowedWindow 560 240) 1)
      (windowedWindow 560 240) rfl rfl (by decide)).1 rfl,
   (screen_change_reconcile twoDisplays
      (openState { hiddenWindowed with visible := true, windowed := false, screen := 2 }
        fullscreenWindow 1)
      fullscreenWindow rfl rfl (by decide)).2 rfl⟩

/-! ## Display-topology timers -/

/-- C12 as stated fails: two raw display events 100 ms apart, at times `0` and `100`.
After the second event both timers are pending (the first one was not cancelled); by time
`599` `updateScreens` has already run once, at `500`, and by time `600` it has run twice,
at `500` and at `600`, not once at `600`. -/
theorem display_burst_runs_twice :
    (displayEvents (fun _ => twoDisplays) windowedOnD1 [0, 100] idleTracker).timers
      = [500, 600]
    ∧ (runScreenTimers (fun _ => twoDisplays) windowedOnD1 599
        (displayEvents (fun _ => twoDisplays) windowedOnD1 [0, 100] idleTracker)).runs = [500]
    ∧ (runScreenTimers (fun _ => twoDisplays) windowedOnD1 600
        (displayEvents (fun _ => twoDisplays) windowedOnD1 [0, 100] idleTracker)).runs
      = [500, 600] := by
  refine ⟨?_, ?_, ?_⟩ <;> decide

/-- C12 (amended): every raw display event sets its own `updateScreens` timer, due 500 ms
after that event, and no event cancels a pending timer. For every sequence of events at
nondecreasing times `times`, starting with no timer pending, once the clock has reached 500
ms after each of them `updateScreens` has run exactly once per event, at the times
`t + 500`, and no timer is left pending; a burst of `n` events gives `n` re-evaluations. -/
theorem display_events_run_once_each (host : Nat → Env) (s : State) (times : List Nat)
    (now : Nat) (k : ScreenTracker)
    (hsorted : times.Pairwise (fun a b => a ≤ b))
    (hnow : ∀ t ∈ times, t + 500 ≤ now)
    (hk : k.timers = []) :
    (runScreenTimers host s now (displayEvents host s times k)).runs
      = k.runs ++ times.map (fun t => t + 500)
    ∧ (runScreenTimers host s now (displayEvents host s times k)).timers = []
    ∧ (runScreenTimers host s now (displayEvents host s times k)).runs.length
      = k.runs.length + times.length := by
  have hspec := displayEvents_spec host s times k hsorted (by rw [hk]; exact List.Pairwise.nil)
    (by rw [hk]; intro d hd; cases hd)
  rw [hk, List.append_nil] at hspec
  have hdue : ∀ d ∈ (displayEvents host s times k).timers, d ≤ now := by
    intro d hd
    rcases displayEvents_timers_mem host s times k d hd with h | h
    · rw [hk] at h
      cases h
    · obtain ⟨t, ht, hdt⟩ := List.mem_map.mp h
      rw [← hdt]
      exact hnow t ht
  obtain ⟨htm, hrn⟩ := runScreenTimers_spec host s now (displayEvents host s times k)
  have hall : (displayEvents host s times k).timers.filter (fun due => due ≤ now)
      = (displayEvents host s times k).timers := by
    rw [List.filter_eq_self]
    intro d hd
    simp [hdue d hd]
  have hnone : (displayEvents host s times k).timers.filter (fun due => ¬ due ≤ now) = [] := by
    rw [List.filter_eq_nil_iff]
    intro d hd
    simp [hdue d hd]
  have hruns : (runScreenTimers host s now (displayEvents host s times k)).runs
      = k.runs ++ times.map (fun t => t + 500) := by
    rw [hrn, hall, hspec]
  refine ⟨hruns, by rw [htm, hnone], ?_⟩
  rw [hruns]
  simp

/-- The amended C12 at a concrete burst: events at `0`, `100` and `450`, clock at `950`;
`updateScreens` has run three times, at `500`, `600` and `950`. -/
theorem display_events_run_once_each_witness :
    (runScreenTimers (fun _ => twoDisplays) windowedOnD1 950
        (displayEvents (fun _ => twoDisplays) windowedOnD1 [0, 100, 450] idleTracker)).runs
      = idleTracker.runs ++ [0, 100, 450].map (fun t => t + 500)
    ∧ (runScreenTimers (fun _ => twoDisplays) windowedOnD1 950
        (displayEvents (fun _ => twoDisplays) windowedOnD1 [0, 100, 450] idleTracker)).timers
      = []
    ∧ (runScreenTimers (fun _ => twoDisplays) windowedOnD1 950
        (displayEvents (fun _ => twoDisplays) windowedOnD1 [0, 100, 450]
          idleTracker)).runs.length
      = idleTracker.runs.length + [0, 100, 450].length :=
  display_events_run_once_each (fun _ => twoDisplays) windowedOnD1 [0, 100, 450] 950
    idleTracker (by decide) (by decide) rfl

/-! ## The resize timer when the surface is closed -/

/-- C13 fails on the code: in `headlessState` a `resize` event sets the resize timer;
`saveAsPNG` and `setAsWallpaper` then close the hidden surface by calling
`testCardWindow.close()` directly, without `clearTimeout`, so the timer is still pending
with no surface, and when it fires `handleTestCardResize` reads the bounds of `null`. The
same happens when the window itself is closed (`onClose`) after a `resize` event. -/
theorem resize_timer_survives_direct_close :
    saveAsPNG (onResize headlessState)
      = .ok { onResize headlessState with
              headlessExportMode := false, testCardWindow := none,
              trace := (onResize headlessState).trace ++ [Effect.close] }
    ∧ setAsWallpaper (onResize headlessState)
      = .ok { onResize headlessState with
              headlessExportMode := false, testCardWindow := none,
              trace := (onResize headlessState).trace ++ [Effect.close] }
    ∧ ({ onResize headlessState with
          headlessExportMode := false, testCardWindow := none,
          trace := (onResize headlessState).trace ++ [Effect.close] }
        : State).testCardWindowResizeTimer = true
    ∧ fireResizeTimer twoDisplays
        { onResize headlessState with
          headlessExportMode := false, testCardWindow := none,
          trace := (onResize headlessState).trace ++ [Effect.close] }
      = .error JsError.typeError
    ∧ (onClose (onResize windowedOnD1)).testCardWindow = none
    ∧ (onClose (onResize windowedOnD1)).testCardWindowResizeTimer = true
    ∧ fireResizeTimer twoDisplays (onClose (onResize windowedOnD1))
      = .error JsError.typeError :=
  ⟨rfl, rfl, rfl, rfl, rfl, rfl, rfl⟩

/-- The path through `closeTestCard` does cancel the resize timer: for every state with a
live surface it returns a state with no surface and no pending resize timer, in which the
timer step does nothing. -/
theorem closeTestCard_cancels_resize_timer (env : Env) (s : State) (w : BrowserWindow)
    (hw : s.testCardWindow = some w) :
    ∃ s', closeTestCard s = .ok s' ∧ s'.testCardWindow = none
      ∧ s'.testCardWindowResizeTimer = false ∧ fireResizeTimer env s' = .ok s' := by
  rw [closeTestCard_spec s w hw]
  exact ⟨_, rfl, rfl, rfl, rfl⟩

end TestCard
